import Mathlib

/-!
Verification development for the pricing-and-dispatch core of the
cabbazar backend (src/services/pricing.service.js,
src/controllers/booking.controller.js, src/models/Booking.js,
src/services/geo.service.js).

Monetary amounts and distances are embedded as rationals; the JavaScript
Math.round is embedded as the floor of x + 1/2 (round half toward
positive infinity), which matches the JavaScript semantics on every
value the embedded code produces.  Rounded currency fields are integers.

Definitions carry the names of the source functions they embed.  Parts
of the repository that its sources import but that are not present in
the source tree (config/constants.js, utils/helpers.js,
utils/customError.js) are modelled from the spec; each such definition
says so in its doc comment.  Purely presentational output fields
(breakdown strings, inclusion lists, display names) are omitted from
the embedded fare records.
-/

deriving instance DecidableEq for Except

attribute [local semireducible] Rat.add Rat.mul Rat.sub Rat.inv

/-- JavaScript Math.round on a rational: floor of x + 1/2. -/
def jround (x : ℚ) : ℤ :=
  Int.floor (x + 1/2)

/-- Rounding to one decimal as the sources write it:
Math.round(x * 10) / 10. -/
def jround1 (x : ℚ) : ℚ :=
  ((jround (x * 10) : ℤ) : ℚ) / 10

/-- Modelled from the spec: TAX_CONFIG.GST_RATE from the missing
config/constants.js.  The spec fixes the tax rate at 5 percent
(its concrete scenario has tax equal to round of 2100 times 0.05). -/
def GST_RATE : ℚ := 5 / 100

/-- Modelled from the spec: calculateGST from the missing
utils/helpers.js.  The spec states tax equals round(subtotal times the
GST rate) and that all monetary values are integers after rounding. -/
def calculateGST (amount rate : ℚ) : ℚ :=
  ((jround (amount * rate) : ℤ) : ℚ)

/-- Vehicle classes; the VEHICLE_TYPES constant is not under src, its
four values are read off the lookup tables in pricing.service.js. -/
inductive Vehicle where
  | HATCHBACK
  | SEDAN
  | SUV
  | PREMIUM_SEDAN
deriving DecidableEq, Repr, Fintype

/-- Iteration order of Object.values(VEHICLE_TYPES) used by
getVehicleOptions. -/
def VEHICLE_LIST : List Vehicle :=
  [Vehicle.HATCHBACK, Vehicle.SEDAN, Vehicle.SUV, Vehicle.PREMIUM_SEDAN]

/-- Per-vehicle tariff row of the PRICING table
(config/constants.js; shape read off pricing.service.js). -/
structure VehicleRates where
  perKmRate : ℚ
  minFare : ℚ
  nightChargeMultiplier : ℚ
deriving DecidableEq, Repr

/-- Configuration consumed by the pricing service: the PRICING table,
the DISTANCE_CONFIG bounds and the AIRPORT_BASE_PRICE table. -/
structure PricingCfg where
  pricing : Vehicle → VehicleRates
  minDistance : ℚ
  maxDistance : ℚ
  freeKmAirport : ℚ
  airportBase : Vehicle → ℚ

/-- Modelled from the spec: concrete values of the missing
constants.js.  The spec fixes SEDAN at 14 per km with minimum fare
1500; the remaining rows and the distance bounds are recorded nowhere
under src, so representative values are chosen.  The theorems below
quantify over arbitrary configurations; this table only feeds the
witnesses. -/
def defCfg : PricingCfg where
  pricing := fun v =>
    match v with
    | Vehicle.HATCHBACK => ⟨12, 1200, 6/5⟩
    | Vehicle.SEDAN => ⟨14, 1500, 6/5⟩
    | Vehicle.SUV => ⟨18, 2200, 6/5⟩
    | Vehicle.PREMIUM_SEDAN => ⟨25, 3000, 6/5⟩
  minDistance := 1
  maxDistance := 3000
  freeKmAirport := 40
  airportBase := fun v =>
    match v with
    | Vehicle.HATCHBACK => 999
    | Vehicle.SEDAN => 1199
    | Vehicle.SUV => 1799
    | Vehicle.PREMIUM_SEDAN => 2499

/-- Error kinds of utils/customError.js (not under src; the kinds are
read off the import lists and throw sites of the sources). -/
inductive Err where
  | badRequest
  | conflict
  | notFound
  | serviceUnavailable
deriving DecidableEq, Repr

/-- Numeric fields of the fare object built by calculateOutstationFare
(pricing.service.js lines 96 to 121). -/
structure OutstationFare where
  vehicleType : Vehicle
  isRoundTrip : Bool
  baseFare : ℤ
  distance : ℚ
  nightCharges : ℤ
  isNightTime : Bool
  subtotal : ℤ
  gst : ℤ
  totalFare : ℤ
  finalAmount : ℤ
  perKmRate : ℚ
  minFareApplied : Bool
deriving DecidableEq, Repr

/-- Success-path computation of calculateOutstationFare
(pricing.service.js lines 72 to 121).  The night flag is the value of
isNightTime(tripDate); isNightTime lives in the missing
utils/helpers.js, so its value is threaded in as an input. -/
def outstationFareData (cfg : PricingCfg) (vt : Vehicle) (distance : ℚ)
    (isRoundTrip : Bool) (isNight : Bool) : OutstationFare :=
  let rates := cfg.pricing vt
  let multiplier : ℚ := if isRoundTrip then 2 else 1
  let totalDistance := jround1 (distance * multiplier)
  let baseFare0 := totalDistance * rates.perKmRate
  let minFareToApply := if isRoundTrip then rates.minFare * (3/2) else rates.minFare
  let baseFare := if baseFare0 < minFareToApply then minFareToApply else baseFare0
  let nightCharges : ℚ := if isNight then baseFare * (rates.nightChargeMultiplier - 1) else 0
  let subtotal := baseFare + nightCharges
  let gst := calculateGST subtotal GST_RATE
  let finalAmount := subtotal + gst
  { vehicleType := vt
    isRoundTrip := isRoundTrip
    baseFare := jround baseFare
    distance := totalDistance
    nightCharges := jround nightCharges
    isNightTime := isNight
    subtotal := jround subtotal
    gst := jround gst
    totalFare := jround subtotal
    finalAmount := jround finalAmount
    perKmRate := rates.perKmRate
    minFareApplied := decide (baseFare = minFareToApply) }

/-- calculateOutstationFare (pricing.service.js lines 29 to 128).
Validation mirrors the source: positive distance, the DISTANCE_CONFIG
bounds, then the start-date checks; dateOk stands for the clock
dependent parse and advance-booking-limit checks on startDateTime. -/
def calculateOutstationFare (cfg : PricingCfg) (vt : Vehicle) (distance : ℚ)
    (isRoundTrip : Bool) (dateOk : Bool) (isNight : Bool) :
    Except Err OutstationFare :=
  if distance ≤ 0 then .error .badRequest
  else if distance < cfg.minDistance then .error .badRequest
  else if cfg.maxDistance < distance then .error .badRequest
  else if !dateOk then .error .badRequest
  else .ok (outstationFareData cfg vt distance isRoundTrip isNight)

/-- Local rental package keys of LOCAL_PACKAGES (the 8h/80km and
12h/120km bundles of pricing.service.js). -/
inductive PkgType where
  | P8_80
  | P12_120
deriving DecidableEq, Repr, Fintype

/-- One LOCAL_PACKAGES entry: flat per-vehicle base fares (a
vehicle may be absent from a package) and per-vehicle overage rates. -/
structure LocalPkg where
  hours : ℚ
  km : ℚ
  base : Vehicle → Option ℚ
  extraKmRate : Vehicle → ℚ
  extraHourRate : Vehicle → ℚ

/-- Modelled from the spec: the missing LOCAL_PACKAGES table.  The spec
fixes the 8h/80km SEDAN base fare at 1499 with extra-km rate 14; the
remaining cells are representative.  PREMIUM_SEDAN is absent from the
packages, matching the skip comment in getVehicleOptions. -/
def defPkgs : PkgType → LocalPkg := fun pt =>
  match pt with
  | PkgType.P8_80 =>
    { hours := 8
      km := 80
      base := fun v =>
        match v with
        | Vehicle.HATCHBACK => some 1299
        | Vehicle.SEDAN => some 1499
        | Vehicle.SUV => some 2099
        | Vehicle.PREMIUM_SEDAN => none
      extraKmRate := fun v =>
        match v with
        | Vehicle.HATCHBACK => 12
        | Vehicle.SEDAN => 14
        | Vehicle.SUV => 18
        | Vehicle.PREMIUM_SEDAN => 0
      extraHourRate := fun v =>
        match v with
        | Vehicle.HATCHBACK => 100
        | Vehicle.SEDAN => 120
        | Vehicle.SUV => 150
        | Vehicle.PREMIUM_SEDAN => 0 }
  | PkgType.P12_120 =>
    { hours := 12
      km := 120
      base := fun v =>
        match v with
        | Vehicle.HATCHBACK => some 1999
        | Vehicle.SEDAN => some 2299
        | Vehicle.SUV => some 2999
        | Vehicle.PREMIUM_SEDAN => none
      extraKmRate := fun v =>
        match v with
        | Vehicle.HATCHBACK => 14
        | Vehicle.SEDAN => 16
        | Vehicle.SUV => 20
        | Vehicle.PREMIUM_SEDAN => 0
      extraHourRate := fun v =>
        match v with
        | Vehicle.HATCHBACK => 110
        | Vehicle.SEDAN => 130
        | Vehicle.SUV => 160
        | Vehicle.PREMIUM_SEDAN => 0 }

/-- Numeric fields of the fare object built by
calculateLocalPackageFare (pricing.service.js lines 191 to 225). -/
structure LocalFare where
  vehicleType : Vehicle
  packageType : PkgType
  baseFare : ℚ
  extraKm : ℚ
  extraHours : ℚ
  extraKmCharge : ℤ
  extraHourCharge : ℤ
  subtotal : ℤ
  gst : ℤ
  totalFare : ℤ
  finalAmount : ℤ
  extraKmRate : ℚ
  extraHourRate : ℚ
deriving DecidableEq, Repr

/-- Success-path computation of calculateLocalPackageFare
(pricing.service.js lines 175 to 225), after the base fare and the
extras have been resolved and validated. -/
def localPackageFareData (pkgs : PkgType → LocalPkg) (vt : Vehicle)
    (pt : PkgType) (baseFare extraKm extraHours : ℚ) : LocalFare :=
  let pkg := pkgs pt
  let extraKmRate := pkg.extraKmRate vt
  let extraHourRate := pkg.extraHourRate vt
  let extraKmCharge := if 0 < extraKm then extraKm * extraKmRate else 0
  let extraHourCharge := if 0 < extraHours then extraHours * extraHourRate else 0
  let subtotal := baseFare + extraKmCharge + extraHourCharge
  let gst := calculateGST subtotal GST_RATE
  let finalAmount := subtotal + gst
  { vehicleType := vt
    packageType := pt
    baseFare := baseFare
    extraKm := jround1 extraKm
    extraHours := jround1 extraHours
    extraKmCharge := jround extraKmCharge
    extraHourCharge := jround extraHourCharge
    subtotal := jround subtotal
    gst := jround gst
    totalFare := jround subtotal
    finalAmount := jround finalAmount
    extraKmRate := extraKmRate
    extraHourRate := extraHourRate }

/-- Validation of one extras entry (pricing.service.js lines 161 to
173): an absent entry counts as zero; a present entry must be
non-negative and within its cap. -/
def validateExtra (cap : ℚ) (x : Option ℚ) : Except Err ℚ :=
  match x with
  | none => .ok 0
  | some v =>
    if v < 0 then .error .badRequest
    else if cap < v then .error .badRequest
    else .ok v

/-- calculateLocalPackageFare (pricing.service.js lines 134 to 232).
The base-fare lookup rejects both a missing vehicle entry and a zero
entry, matching the falsy check in the source. -/
def calculateLocalPackageFare (pkgs : PkgType → LocalPkg) (vt : Vehicle)
    (pt : PkgType) (extraKm extraHours : Option ℚ) : Except Err LocalFare :=
  match (pkgs pt).base vt with
  | none => .error .badRequest
  | some baseFare =>
    if baseFare = 0 then .error .badRequest
    else
      match validateExtra 500 extraKm with
      | .error e => .error e
      | .ok ek =>
        match validateExtra 12 extraHours with
        | .error e => .error e
        | .ok eh => .ok (localPackageFareData pkgs vt pt baseFare ek eh)

/-- Numeric fields of the fare object built by calculateAirportFare
(pricing.service.js lines 285 to 315). -/
structure AirportFare where
  vehicleType : Vehicle
  baseFare : ℤ
  basePrice : ℚ
  distance : ℚ
  freeKmIncluded : ℚ
  extraKm : ℚ
  extraKmCharge : ℤ
  nightCharges : ℤ
  isNightTime : Bool
  subtotal : ℤ
  gst : ℤ
  totalFare : ℤ
  finalAmount : ℤ
  perKmRate : ℚ
deriving DecidableEq, Repr

/-- Success-path computation of calculateAirportFare
(pricing.service.js lines 263 to 315). -/
def airportFareData (cfg : PricingCfg) (vt : Vehicle) (distance : ℚ)
    (isNight : Bool) : AirportFare :=
  let basePrice := cfg.airportBase vt
  let freeKm := cfg.freeKmAirport
  let extraKm := max 0 (distance - freeKm)
  let extraKmCharge := extraKm * (cfg.pricing vt).perKmRate
  let baseFare := basePrice + extraKmCharge
  let nightCharges : ℚ :=
    if isNight then baseFare * ((cfg.pricing vt).nightChargeMultiplier - 1) else 0
  let subtotal := baseFare + nightCharges
  let gst := calculateGST subtotal GST_RATE
  let finalAmount := subtotal + gst
  { vehicleType := vt
    baseFare := jround baseFare
    basePrice := basePrice
    distance := jround1 distance
    freeKmIncluded := freeKm
    extraKm := jround1 extraKm
    extraKmCharge := jround extraKmCharge
    nightCharges := jround nightCharges
    isNightTime := isNight
    subtotal := jround subtotal
    gst := jround gst
    totalFare := jround subtotal
    finalAmount := jround finalAmount
    perKmRate := (cfg.pricing vt).perKmRate }

/-- calculateAirportFare (pricing.service.js lines 238 to 322).  The
base-price lookup rejects a zero entry, matching the falsy check; the
200 km cap is written in the source. -/
def calculateAirportFare (cfg : PricingCfg) (vt : Vehicle) (distance : ℚ)
    (dateOk : Bool) (isNight : Bool) : Except Err AirportFare :=
  if cfg.airportBase vt = 0 then .error .badRequest
  else if distance ≤ 0 then .error .badRequest
  else if (200 : ℚ) < distance then .error .badRequest
  else if !dateOk then .error .badRequest
  else .ok (airportFareData cfg vt distance isNight)

/-- Booking types of the missing BOOKING_TYPES constant, read off the
switch in getVehicleOptions and the controllers. -/
inductive BookingType where
  | ONE_WAY
  | ROUND_TRIP
  | LOCAL_8_80
  | LOCAL_12_120
  | AIRPORT_DROP
  | AIRPORT_PICKUP
deriving DecidableEq, Repr, Fintype

/-- Fare details attached to a vehicle option, one of the three
calculator outputs. -/
inductive FareDetails where
  | outst (f : OutstationFare)
  | localPkg (f : LocalFare)
  | airport (f : AirportFare)
deriving DecidableEq, Repr

/-- Subtotal field of a fare-details object. -/
def FareDetails.subtotalZ : FareDetails → ℤ
  | .outst f => f.subtotal
  | .localPkg f => f.subtotal
  | .airport f => f.subtotal

/-- GST field of a fare-details object. -/
def FareDetails.gstZ : FareDetails → ℤ
  | .outst f => f.gst
  | .localPkg f => f.gst
  | .airport f => f.gst

/-- Final-amount field of a fare-details object. -/
def FareDetails.finalAmountZ : FareDetails → ℤ
  | .outst f => f.finalAmount
  | .localPkg f => f.finalAmount
  | .airport f => f.finalAmount

/-- Dispatch of getVehicleOptions to the per-type calculator
(pricing.service.js lines 358 to 384). -/
def fareFor (cfg : PricingCfg) (pkgs : PkgType → LocalPkg) (bt : BookingType)
    (vt : Vehicle) (distance : ℚ) (extraKm extraHours : Option ℚ)
    (dateOk : Bool) (isNight : Bool) : Except Err FareDetails :=
  match bt with
  | .ONE_WAY => (calculateOutstationFare cfg vt distance false dateOk isNight).map .outst
  | .ROUND_TRIP => (calculateOutstationFare cfg vt distance true dateOk isNight).map .outst
  | .LOCAL_8_80 => (calculateLocalPackageFare pkgs vt .P8_80 extraKm extraHours).map .localPkg
  | .LOCAL_12_120 => (calculateLocalPackageFare pkgs vt .P12_120 extraKm extraHours).map .localPkg
  | .AIRPORT_DROP => (calculateAirportFare cfg vt distance dateOk isNight).map .airport
  | .AIRPORT_PICKUP => (calculateAirportFare cfg vt distance dateOk isNight).map .airport

/-- Booking types whose fare needs a distance (pricing.service.js lines
338 to 343). -/
def requiresDistance (bt : BookingType) : Bool :=
  match bt with
  | .ONE_WAY | .ROUND_TRIP | .AIRPORT_DROP | .AIRPORT_PICKUP => true
  | .LOCAL_8_80 | .LOCAL_12_120 => false

/-- Distance-parameter gate of getVehicleOptions (pricing.service.js
lines 345 to 349): a required distance must be present and positive. -/
def distanceParamOk (bt : BookingType) (distance : Option ℚ) : Bool :=
  if requiresDistance bt then
    match distance with
    | some d => decide (0 < d)
    | none => false
  else true

/-- One entry of the options list built by getVehicleOptions; the
display-only fields are omitted. -/
structure VehicleOption where
  vehicleType : Vehicle
  fareDetails : FareDetails
deriving DecidableEq, Repr

/-- Option built for one vehicle by the forEach body of
getVehicleOptions: the entry pushed on success, nothing when the
per-vehicle fare computation throws. -/
def vehicleOptionFor (cfg : PricingCfg) (pkgs : PkgType → LocalPkg)
    (bt : BookingType) (distance : Option ℚ) (extraKm extraHours : Option ℚ)
    (dateOk : Bool) (isNight : Bool) (vt : Vehicle) : Option VehicleOption :=
  match fareFor cfg pkgs bt vt (distance.getD 0) extraKm extraHours dateOk isNight with
  | .ok fd => some { vehicleType := vt, fareDetails := fd }
  | .error _ => none

/-- getVehicleOptions (pricing.service.js lines 328 to 430): vehicles
whose per-vehicle fare computation throws are skipped, an empty options
list is an error, and the survivors are sorted by ascending final
amount. -/
def getVehicleOptions (cfg : PricingCfg) (pkgs : PkgType → LocalPkg)
    (bt : BookingType) (distance : Option ℚ) (extraKm extraHours : Option ℚ)
    (dateOk : Bool) (isNight : Bool) : Except Err (List VehicleOption) :=
  if ¬ distanceParamOk bt distance then .error .badRequest
  else if (VEHICLE_LIST.filterMap
      (vehicleOptionFor cfg pkgs bt distance extraKm extraHours dateOk isNight)).isEmpty then
    .error .badRequest
  else .ok (List.insertionSort
    (fun a b => a.fareDetails.finalAmountZ ≤ b.fareDetails.finalAmountZ)
    (VEHICLE_LIST.filterMap
      (vehicleOptionFor cfg pkgs bt distance extraKm extraHours dateOk isNight)))

/-- Booking statuses of the missing BOOKING_STATUS constant, read off
booking.controller.js and the Booking schema. -/
inductive BookingStatus where
  | PENDING
  | CONFIRMED
  | ASSIGNED
  | IN_PROGRESS
  | COMPLETED
  | CANCELLED
  | REJECTED
deriving DecidableEq, Repr, Fintype

/-- Stored fareDetails fields of a persisted booking that the discount
path reads and writes (models/Booking.js fareSchema); the string fields
discountCode and discountType are presentational and omitted. -/
structure StoredFare where
  baseFare : ℤ
  nightCharges : ℤ
  subtotal : ℤ
  gst : ℤ
  finalAmount : ℤ
  discountAmount : ℤ
deriving DecidableEq, Repr

/-- Discount codes recognized by applyDiscount
(booking.controller.js lines 1162 to 1180); any other string is
invalid. -/
inductive DiscountCode where
  | FIRST100
  | SAVE10
  | INVALID
deriving DecidableEq, Repr

/-- Discount amount resolution of applyDiscount
(booking.controller.js lines 1158 to 1185): FIRST100 is a fixed 100
valid only when the user has no completed booking; SAVE10 is ten
percent of the stored base fare capped at 150; any other code is
invalid. -/
def discountAmountFor (fd : StoredFare) (code : DiscountCode)
    (completedBookings : ℕ) : Except Err ℚ :=
  match code with
  | .FIRST100 =>
    if completedBookings = 0 then .ok 100 else .error .badRequest
  | .SAVE10 => .ok (min ((fd.baseFare : ℚ) * (1/10)) 150)
  | .INVALID => .error .badRequest

/-- applyDiscount (booking.controller.js lines 1122 to 1237).
tripStarted is the comparison of the stored startDateTime with the
clock; completedBookings is the count of the users COMPLETED bookings
queried for the FIRST100 rule.  The recomputation reconstructs the
subtotal as baseFare plus nightCharges (line 1194) and applies the
discount to that value with a floor of zero. -/
def applyDiscount (status : BookingStatus) (tripStarted : Bool)
    (fd : StoredFare) (code : DiscountCode) (completedBookings : ℕ) :
    Except Err StoredFare :=
  if status ≠ BookingStatus.CONFIRMED ∧ status ≠ BookingStatus.ASSIGNED then
    .error .badRequest
  else if tripStarted then .error .badRequest
  else if 0 < fd.discountAmount then .error .conflict
  else
    match discountAmountFor fd code completedBookings with
    | .error e => .error e
    | .ok amt =>
      if amt ≤ 0 then .error .badRequest
      else
        let discountAmount := jround amt
        let originalSubtotal : ℚ := (fd.baseFare : ℚ) + (fd.nightCharges : ℚ)
        let subtotalAfterDiscount : ℚ :=
          max 0 (originalSubtotal - (discountAmount : ℚ))
        let newGst := calculateGST subtotalAfterDiscount GST_RATE
        let newFinalAmount := subtotalAfterDiscount + newGst
        .ok { fd with
              discountAmount := discountAmount
              subtotal := jround subtotalAfterDiscount
              gst := jround newGst
              finalAmount := jround newFinalAmount }

/-- Requester roles of updateBookingStatus (booking.controller.js). -/
inductive Role where
  | ADMIN
  | CUSTOMER
  | DRIVER
deriving DecidableEq, Repr, Fintype

/-- The allowedTransitions table of updateBookingStatus
(booking.controller.js lines 1503 to 1527): for each current status the
permitted next statuses with the roles allowed to request them; an
empty list means the pair is not in the table. -/
def allowedRoles (src tgt : BookingStatus) : List Role :=
  match src, tgt with
  | .PENDING, .CONFIRMED => [.ADMIN]
  | .PENDING, .REJECTED => [.ADMIN]
  | .PENDING, .CANCELLED => [.ADMIN, .CUSTOMER]
  | .CONFIRMED, .ASSIGNED => [.ADMIN]
  | .CONFIRMED, .CANCELLED => [.ADMIN, .CUSTOMER]
  | .ASSIGNED, .IN_PROGRESS => [.DRIVER]
  | .ASSIGNED, .CANCELLED => [.ADMIN, .CUSTOMER, .DRIVER]
  | .IN_PROGRESS, .COMPLETED => [.DRIVER]
  | _, _ => []

/-- Outcome of the guard-and-transition validation of
updateBookingStatus.  The source throws AuthorizationError at lines
1493, 1497 and 1537 of booking.controller.js, but AuthorizationError is
never imported into that module (its import list has only
NotFoundError, BadRequestError, ConflictError and
ServiceUnavailableError), so each of those throw sites raises a
ReferenceError at runtime; that crash is embedded as the distinct
referenceErrorAuthorization outcome. -/
inductive UpdateStatusOutcome where
  | updated
  | invalidTransition
  | referenceErrorAuthorization
deriving DecidableEq, Repr

/-- Guard and transition validation of updateBookingStatus
(booking.controller.js lines 1471 to 1538): customer guards first,
then rejection of pairs missing from the table, then the role check
for a listed pair. -/
def updateBookingStatus (role : Role) (isOwner : Bool)
    (src tgt : BookingStatus) : UpdateStatusOutcome :=
  if role = Role.CUSTOMER ∧ ¬ isOwner then .referenceErrorAuthorization
  else if role = Role.CUSTOMER ∧ isOwner ∧ tgt ≠ BookingStatus.CANCELLED then
    .referenceErrorAuthorization
  else if allowedRoles src tgt = [] then .invalidTransition
  else if role ∉ allowedRoles src tgt then .referenceErrorAuthorization
  else .updated

/-- Payment statuses read by cancelBooking; the PAYMENT_STATUS constant
is not under src, its values are read off booking.controller.js. -/
inductive PaymentStatus where
  | PENDING
  | PROCESSING
  | COMPLETED
  | REFUND_INITIATED
deriving DecidableEq, Repr, Fintype

/-- Payment methods read by cancelBooking; only the CASH distinction is
observable in the source. -/
inductive PaymentMethod where
  | CASH
  | ONLINE
deriving DecidableEq, Repr, Fintype

/-- Cancellation window configuration (BOOKING_CONFIG of the missing
constants.js). -/
structure CancelCfg where
  windowHours : ℚ
  chargePercent : ℚ

/-- Modelled from the spec: the cancellation window is 24 hours in the
spec example; the charge percentage is recorded nowhere under src, a
representative 10 percent is chosen.  The theorems quantify over
arbitrary configurations. -/
def defCancelCfg : CancelCfg where
  windowHours := 24
  chargePercent := 10

/-- Statuses a user may cancel from (booking.controller.js lines 812 to
816). -/
def userCancellableStatuses : List BookingStatus :=
  [BookingStatus.PENDING, BookingStatus.CONFIRMED, BookingStatus.ASSIGNED]

/-- Monetary outcome of a user cancellation. -/
structure CancellationOutcome where
  charge : ℤ
  refund : ℤ
  chargeApplied : Bool
deriving DecidableEq, Repr

/-- Cancellation economics of cancelBooking (booking.controller.js
lines 797 to 955): the charge applies only when the gap to the
scheduled start is non-negative and inside the window (lines 829 to
841); a refund is computed only for a completed or processing non-cash
payment (lines 910 to 937), otherwise the reported refund stays 0. -/
def cancelBooking (cfg : CancelCfg) (status : BookingStatus)
    (hoursUntilStart : ℚ) (finalAmount : ℤ) (payStatus : PaymentStatus)
    (payMethod : PaymentMethod) : Except Err CancellationOutcome :=
  if status ∉ userCancellableStatuses then .error .badRequest
  else
    let inWindow := hoursUntilStart < cfg.windowHours ∧ 0 ≤ hoursUntilStart
    let charge : ℤ :=
      if inWindow then jround ((finalAmount : ℚ) * cfg.chargePercent / 100) else 0
    let refund : ℤ :=
      if (payStatus = PaymentStatus.COMPLETED ∨ payStatus = PaymentStatus.PROCESSING)
          ∧ payMethod ≠ PaymentMethod.CASH then
        max 0 (finalAmount - charge)
      else 0
    .ok ⟨charge, refund, decide inWindow⟩

/-- Stored booking fields read by the duplicate guard of createBooking;
the scheduled start is milliseconds since the epoch as in the source
Date arithmetic. -/
structure BookingRec where
  bookingId : ℕ
  userId : ℕ
  startMs : ℤ
  status : BookingStatus
deriving DecidableEq, Repr

/-- The 30 minute buffer of the duplicate query
(booking.controller.js line 485). -/
def timeBufferMs : ℤ := 30 * 60 * 1000

/-- The duplicate query predicate (booking.controller.js lines 486 to
493): same user, scheduled start within the buffer of the requested
time, status not terminal. -/
def clashes (uid : ℕ) (t : ℤ) (b : BookingRec) : Bool :=
  b.userId == uid
    && decide (t - timeBufferMs ≤ b.startMs)
    && decide (b.startMs ≤ t + timeBufferMs)
    && !([BookingStatus.CANCELLED, BookingStatus.COMPLETED,
          BookingStatus.REJECTED].contains b.status)

/-- Outcome of the duplicate-guarded creation step. -/
inductive CreateOutcome where
  | conflictWith (bookingId : ℕ)
  | created (b : BookingRec)
deriving DecidableEq, Repr

/-- Duplicate guard and creation of createBooking
(booking.controller.js lines 484 to 535): if the store holds a clashing
booking the request fails with a conflict naming that booking and the
store is untouched; otherwise the new booking is appended with status
CONFIRMED. -/
def createBooking (bookings : List BookingRec) (uid : ℕ) (t : ℤ)
    (newId : ℕ) : CreateOutcome × List BookingRec :=
  match bookings.find? (clashes uid t) with
  | some b => (.conflictWith b.bookingId, bookings)
  | none =>
    (.created ⟨newId, uid, t, BookingStatus.CONFIRMED⟩,
      bookings ++ [⟨newId, uid, t, BookingStatus.CONFIRMED⟩])

/-- A latitude/longitude pair as the controllers pass them around. -/
structure Coords where
  lat : ℚ
  lng : ℚ
deriving DecidableEq, Repr

/-- Distance input resolved by the first half of searchCabs: either a
caller-supplied positive distance, or a pair of endpoint coordinates
for routing. -/
inductive SearchDistanceInput where
  | providedDistance (km : ℚ)
  | endpointCoords (origin dest : Coords)
deriving DecidableEq, Repr

/-- Failure of endpoint resolution, carrying the offending address.
Free-text addresses are abstracted to plain numeric codes. -/
inductive SearchResolveError where
  | locationNotFound (address : ℕ)
deriving DecidableEq, Repr

/-- Endpoint resolution of searchCabs (booking.controller.js lines 97
to 134).  The geocoder argument is the behavior of
getCoordinatesFromAddressNominatim (lines 234 to 288), which returns
null alike on provider failure, malformed response, timeout and empty
results; a none result therefore covers every provider failure mode.
A caller-supplied positive distance short-circuits resolution; an
endpoint without usable coordinates is geocoded, and a geocoder miss
fails the pipeline naming that endpoint. -/
def resolveEndpointCoords (fromAddr toAddr : ℕ)
    (fromCoords toCoords : Option Coords) (geocode : ℕ → Option Coords) :
    Except SearchResolveError SearchDistanceInput :=
  match (match fromCoords with | some c => some c | none => geocode fromAddr) with
  | none => .error (.locationNotFound fromAddr)
  | some o =>
    match (match toCoords with | some c => some c | none => geocode toAddr) with
    | none => .error (.locationNotFound toAddr)
    | some d => .ok (.endpointCoords o d)

/-- Distance half of searchCabs (booking.controller.js lines 97 to
111): a caller-supplied positive distance short-circuits resolution,
anything else falls through to coordinate resolution. -/
def searchCabsResolveEndpoints (distance : Option ℚ) (fromAddr toAddr : ℕ)
    (fromCoords toCoords : Option Coords) (geocode : ℕ → Option Coords) :
    Except SearchResolveError SearchDistanceInput :=
  match distance with
  | some dv =>
    if 0 < dv then .ok (.providedDistance dv)
    else resolveEndpointCoords fromAddr toAddr fromCoords toCoords geocode
  | none => resolveEndpointCoords fromAddr toAddr fromCoords toCoords geocode

/-- Response post-processing of getDrivingDistanceOSRM
(booking.controller.js lines 296 to 359).  The argument is the route
distance in meters when the provider answered with a well-formed route,
and none on timeout, error code or malformed response.  A negative
distance is rejected; the meters are converted to kilometers rounded to
one decimal; a zero result for non-identical coordinates is treated as
invalid and becomes null. -/
def getDrivingDistanceOSRM (origin dest : Coords) (response : Option ℚ) :
    Option ℚ :=
  match response with
  | none => none
  | some meters =>
    if meters < 0 then none
    else
      let km := jround1 (meters / 1000)
      if km = 0 ∧ origin ≠ dest then none else some km

/-- Routing failure as searchCabs sees it (booking.controller.js line
140): the OSRM helper returned null, or a non-positive distance. -/
def routingFailed (origin dest : Coords) (response : Option ℚ) : Bool :=
  match getDrivingDistanceOSRM origin dest response with
  | none => true
  | some km => decide (km ≤ 0)

/-- Degrees to radians (pricing.service.js toRad). -/
noncomputable def toRadians (x : ℝ) : ℝ := x * (Real.pi / 180)

/-- JavaScript Math.atan2 on the real numbers. -/
noncomputable def jsAtan2 (y x : ℝ) : ℝ :=
  if 0 < x then Real.arctan (y / x)
  else if x = 0 then
    (if 0 < y then Real.pi / 2 else if y < 0 then -(Real.pi / 2) else 0)
  else if 0 ≤ y then Real.arctan (y / x) + Real.pi
  else Real.arctan (y / x) - Real.pi

/-- Great-circle distance of calculateDistanceFromCoordinates
(pricing.service.js lines 458 to 463): the haversine formula with
earth radius 6371 km. -/
noncomputable def haversineKm (origin dest : Coords) : ℝ :=
  let dLat := toRadians (((dest.lat - origin.lat : ℚ) : ℝ))
  let dLon := toRadians (((dest.lng - origin.lng : ℚ) : ℝ))
  let a := Real.sin (dLat / 2) * Real.sin (dLat / 2) +
    Real.cos (toRadians ((origin.lat : ℚ) : ℝ)) *
      Real.cos (toRadians ((dest.lat : ℚ) : ℝ)) *
      Real.sin (dLon / 2) * Real.sin (dLon / 2)
  let c := 2 * jsAtan2 (Real.sqrt a) (Real.sqrt (1 - a))
  6371 * c

/-- Math.round(x * 10) / 10 on the reals. -/
noncomputable def jround1R (x : ℝ) : ℝ :=
  ((Int.floor (x * 10 + 1/2) : ℤ) : ℝ) / 10

/-- calculateDistanceFromCoordinates (pricing.service.js lines 453 to
470): haversine distance times the fixed 1.4 road-circuity multiplier,
rounded to one decimal. -/
noncomputable def calculateDistanceFromCoordinates (origin dest : Coords) : ℝ :=
  jround1R (haversineKm origin dest * (14/10))

/-- Distance determined by the routing half of searchCabs, tagged with
how it was obtained, or the distance-determination failure. -/
inductive SearchDistance where
  | fromOSRM (km : ℚ)
  | fromFallback (km : ℝ)
  | unavailable

open scoped Classical in
/-- Routing stage of searchCabs (booking.controller.js lines 136 to
165): a positive routed distance is used as is; otherwise the
straight-line fallback of the pricing service is tried, and a
non-positive fallback fails with the service-unavailable error of line
154. -/
noncomputable def searchCabsDistanceStage (origin dest : Coords)
    (response : Option ℚ) : SearchDistance :=
  let fallback : SearchDistance :=
    if calculateDistanceFromCoordinates origin dest ≤ 0 then .unavailable
    else .fromFallback (calculateDistanceFromCoordinates origin dest)
  match getDrivingDistanceOSRM origin dest response with
  | some km => if 0 < km then .fromOSRM km else fallback
  | none => fallback

/-- Sanity of a pricing configuration: non-negative rates and fares and
a night multiplier of at least one, as the tariff-table reading of the
spec requires. -/
def SaneCfg (cfg : PricingCfg) : Prop :=
  ∀ vt, 0 ≤ (cfg.pricing vt).perKmRate ∧ 0 ≤ (cfg.pricing vt).minFare ∧
    1 ≤ (cfg.pricing vt).nightChargeMultiplier ∧ 0 ≤ cfg.airportBase vt

/-- Sanity of the local-package tables: non-negative base fares and
overage rates. -/
def SanePkgs (pkgs : PkgType → LocalPkg) : Prop :=
  ∀ pt vt, 0 ≤ (pkgs pt).extraKmRate vt ∧ 0 ≤ (pkgs pt).extraHourRate vt ∧
    0 ≤ (((pkgs pt).base vt).getD 0)

/-- A fare-details value produced by one of the three fare
calculators on some valid input. -/
def FromCalculator (cfg : PricingCfg) (pkgs : PkgType → LocalPkg)
    (fd : FareDetails) : Prop :=
  (∃ vt d rt dk ni f, calculateOutstationFare cfg vt d rt dk ni = .ok f ∧
    fd = .outst f) ∨
  (∃ vt pt ek eh f, calculateLocalPackageFare pkgs vt pt ek eh = .ok f ∧
    fd = .localPkg f) ∨
  (∃ vt d dk ni f, calculateAirportFare cfg vt d dk ni = .ok f ∧
    fd = .airport f)

theorem jround_intCast (n : ℤ) : jround ((n : ℚ)) = n := by
  unfold jround
  rw [add_comm, Int.floor_add_int]
  norm_num

theorem jround_add_intCast (x : ℚ) (n : ℤ) :
    jround (x + (n : ℚ)) = jround x + n := by
  unfold jround
  rw [add_right_comm, Int.floor_add_int]

theorem jround_mono {x y : ℚ} (h : x ≤ y) : jround x ≤ jround y :=
  Int.floor_le_floor (by linarith)

theorem jround_nonneg {x : ℚ} (h : 0 ≤ x) : 0 ≤ jround x := by
  have h0 : jround 0 = 0 := by
    unfold jround
    norm_num
  calc (0 : ℤ) = jround 0 := h0.symm
    _ ≤ jround x := jround_mono h

theorem jround1_nonneg {x : ℚ} (h : 0 ≤ x) : 0 ≤ jround1 x := by
  unfold jround1
  have : (0 : ℤ) ≤ jround (x * 10) := jround_nonneg (by linarith)
  positivity

theorem jround1_mono {x y : ℚ} (h : x ≤ y) : jround1 x ≤ jround1 y := by
  unfold jround1
  have : jround (x * 10) ≤ jround (y * 10) := jround_mono (by linarith)
  have hc : ((jround (x * 10) : ℤ) : ℚ) ≤ ((jround (y * 10) : ℤ) : ℚ) := by
    exact_mod_cast this
  linarith

theorem jround_calculateGST (s r : ℚ) :
    jround (calculateGST s r) = jround (s * r) := by
  unfold calculateGST
  exact jround_intCast _

theorem jround_add_calculateGST (s r : ℚ) :
    jround (s + calculateGST s r) = jround s + jround (s * r) := by
  unfold calculateGST
  exact jround_add_intCast _ _

/-- Shared arithmetic of every calculator output: over a non-negative
pre-tax subtotal the rounded final amount is the rounded subtotal plus
the rounded tax, and all three are non-negative. -/
theorem subtotal_breakdown (S : ℚ) (hS : 0 ≤ S) :
    jround (S + calculateGST S GST_RATE)
      = jround S + jround (calculateGST S GST_RATE)
    ∧ 0 ≤ jround S ∧ 0 ≤ jround (calculateGST S GST_RATE)
    ∧ 0 ≤ jround (S + calculateGST S GST_RATE) := by
  have hgz : 0 ≤ jround (S * GST_RATE) := by
    apply jround_nonneg
    have : (0 : ℚ) ≤ GST_RATE := by norm_num [GST_RATE]
    positivity
  have h1 := jround_add_calculateGST S GST_RATE
  have h2 := jround_calculateGST S GST_RATE
  refine ⟨by rw [h1, h2], jround_nonneg hS, by rw [h2]; exact hgz, ?_⟩
  rw [h1]
  have := jround_nonneg hS
  omega

theorem monotone_final (r : ℚ) (hr : 0 ≤ r) {s t : ℚ} (h : s ≤ t) :
    jround (s + calculateGST s r) ≤ jround (t + calculateGST t r) := by
  rw [jround_add_calculateGST, jround_add_calculateGST]
  have h1 : jround s ≤ jround t := jround_mono h
  have h2 : jround (s * r) ≤ jround (t * r) :=
    jround_mono (by exact mul_le_mul_of_nonneg_right h hr)
  omega

theorem calculateOutstationFare_ok {cfg : PricingCfg} {vt : Vehicle}
    {d : ℚ} {rt dk ni : Bool} {f : OutstationFare}
    (h : calculateOutstationFare cfg vt d rt dk ni = .ok f) :
    0 < d ∧ f = outstationFareData cfg vt d rt ni := by
  unfold calculateOutstationFare at h
  split_ifs at h with h1 h2 h3 h4
  refine ⟨lt_of_not_ge h1, ?_⟩
  injection h with h
  exact h.symm

theorem validateExtra_ok {cap : ℚ} {x : Option ℚ} {v : ℚ}
    (h : validateExtra cap x = .ok v) : 0 ≤ v ∧ v ≤ cap ∨ v = 0 := by
  cases x with
  | none =>
    simp only [validateExtra] at h
    injection h with h
    exact Or.inr h.symm
  | some w =>
    simp only [validateExtra] at h
    split_ifs at h with h1 h2
    injection h with h
    subst h
    exact Or.inl ⟨le_of_not_gt h1, le_of_not_gt h2⟩

theorem validateExtra_ok_nonneg {cap : ℚ} {x : Option ℚ} {v : ℚ}
    (h : validateExtra cap x = .ok v) : 0 ≤ v := by
  rcases validateExtra_ok h with ⟨h1, _⟩ | h1
  · exact h1
  · simp [h1]

theorem calculateLocalPackageFare_ok {pkgs : PkgType → LocalPkg}
    {vt : Vehicle} {pt : PkgType} {ekx ehx : Option ℚ} {f : LocalFare}
    (h : calculateLocalPackageFare pkgs vt pt ekx ehx = .ok f) :
    ∃ b ek eh, (pkgs pt).base vt = some b ∧ b ≠ 0 ∧ 0 ≤ ek ∧ 0 ≤ eh ∧
      f = localPackageFareData pkgs vt pt b ek eh := by
  unfold calculateLocalPackageFare at h
  split at h
  next hbase => exact Except.noConfusion h
  next b hbase =>
    split_ifs at h with h0
    split at h
    next e hek => exact Except.noConfusion h
    next ek hek =>
      split at h
      next e heh => exact Except.noConfusion h
      next eh heh =>
        injection h with h
        exact ⟨b, ek, eh, hbase, h0, validateExtra_ok_nonneg hek,
          validateExtra_ok_nonneg heh, h.symm⟩

theorem calculateAirportFare_ok {cfg : PricingCfg} {vt : Vehicle}
    {d : ℚ} {dk ni : Bool} {f : AirportFare}
    (h : calculateAirportFare cfg vt d dk ni = .ok f) :
    0 < d ∧ f = airportFareData cfg vt d ni := by
  unfold calculateAirportFare at h
  split_ifs at h with h1 h2 h3 h4
  refine ⟨lt_of_not_ge h2, ?_⟩
  injection h with h
  exact h.symm

theorem outstation_subtotal_nonneg (b0 mf m : ℚ) (ni : Bool)
    (hb0 : 0 ≤ b0) (hmf : 0 ≤ mf) (hm : 1 ≤ m) :
    0 ≤ (if b0 < mf then mf else b0) +
      (if ni then (if b0 < mf then mf else b0) * (m - 1) else 0) := by
  have hB : 0 ≤ (if b0 < mf then mf else b0) := by
    split_ifs <;> assumption
  have hN : 0 ≤ (if ni then (if b0 < mf then mf else b0) * (m - 1) else 0) := by
    cases ni with
    | false => simp
    | true => simpa using mul_nonneg hB (by linarith)
  linarith

theorem outstationFareData_invariant (cfg : PricingCfg) (vt : Vehicle)
    (d : ℚ) (rt ni : Bool) (hrate : 0 ≤ (cfg.pricing vt).perKmRate)
    (hminf : 0 ≤ (cfg.pricing vt).minFare)
    (hmult : 1 ≤ (cfg.pricing vt).nightChargeMultiplier) (hd : 0 ≤ d) :
    (outstationFareData cfg vt d rt ni).finalAmount =
      (outstationFareData cfg vt d rt ni).subtotal +
        (outstationFareData cfg vt d rt ni).gst
    ∧ 0 ≤ (outstationFareData cfg vt d rt ni).subtotal
    ∧ 0 ≤ (outstationFareData cfg vt d rt ni).gst
    ∧ 0 ≤ (outstationFareData cfg vt d rt ni).finalAmount := by
  simp only [outstationFareData]
  apply subtotal_breakdown
  apply outstation_subtotal_nonneg
  · exact mul_nonneg (jround1_nonneg (mul_nonneg hd (by split_ifs <;> norm_num))) hrate
  · split_ifs
    · linarith
    · exact hminf
  · exact hmult

theorem localPackageFareData_invariant (pkgs : PkgType → LocalPkg)
    (vt : Vehicle) (pt : PkgType) (b ek eh : ℚ) (hb : 0 ≤ b)
    (hek : 0 ≤ ek) (heh : 0 ≤ eh) (hkr : 0 ≤ (pkgs pt).extraKmRate vt)
    (hhr : 0 ≤ (pkgs pt).extraHourRate vt) :
    (localPackageFareData pkgs vt pt b ek eh).finalAmount =
      (localPackageFareData pkgs vt pt b ek eh).subtotal +
        (localPackageFareData pkgs vt pt b ek eh).gst
    ∧ 0 ≤ (localPackageFareData pkgs vt pt b ek eh).subtotal
    ∧ 0 ≤ (localPackageFareData pkgs vt pt b ek eh).gst
    ∧ 0 ≤ (localPackageFareData pkgs vt pt b ek eh).finalAmount := by
  simp only [localPackageFareData]
  apply subtotal_breakdown
  have h1 : 0 ≤ (if 0 < ek then ek * (pkgs pt).extraKmRate vt else 0) := by
    split_ifs with h
    · exact mul_nonneg hek hkr
    · exact le_refl (0 : ℚ)
  have h2 : 0 ≤ (if 0 < eh then eh * (pkgs pt).extraHourRate vt else 0) := by
    split_ifs with h
    · exact mul_nonneg heh hhr
    · exact le_refl (0 : ℚ)
  linarith

theorem airportFareData_invariant (cfg : PricingCfg) (vt : Vehicle)
    (d : ℚ) (ni : Bool) (hbase : 0 ≤ cfg.airportBase vt)
    (hrate : 0 ≤ (cfg.pricing vt).perKmRate)
    (hmult : 1 ≤ (cfg.pricing vt).nightChargeMultiplier) :
    (airportFareData cfg vt d ni).finalAmount =
      (airportFareData cfg vt d ni).subtotal + (airportFareData cfg vt d ni).gst
    ∧ 0 ≤ (airportFareData cfg vt d ni).subtotal
    ∧ 0 ≤ (airportFareData cfg vt d ni).gst
    ∧ 0 ≤ (airportFareData cfg vt d ni).finalAmount := by
  simp only [airportFareData]
  apply subtotal_breakdown
  have hek : (0 : ℚ) ≤ max 0 (d - cfg.freeKmAirport) := le_max_left _ _
  have hekC : 0 ≤ max 0 (d - cfg.freeKmAirport) * (cfg.pricing vt).perKmRate :=
    mul_nonneg hek hrate
  have hBF : 0 ≤ cfg.airportBase vt + max 0 (d - cfg.freeKmAirport) * (cfg.pricing vt).perKmRate := by
    linarith
  have hN : 0 ≤ (if ni then
      (cfg.airportBase vt + max 0 (d - cfg.freeKmAirport) * (cfg.pricing vt).perKmRate) *
        ((cfg.pricing vt).nightChargeMultiplier - 1) else 0) := by
    cases ni with
    | false => simp
    | true => simpa using mul_nonneg hBF (by linarith)
  linarith

/-- C1: for every valid fare-computation input, the fare breakdown
returned by calculateOutstationFare, calculateLocalPackageFare or
calculateAirportFare satisfies finalAmount equal to subtotal plus gst
on the returned fields, and subtotal, gst and finalAmount are all
non-negative integers. -/
theorem fare_breakdown_invariant (cfg : PricingCfg) (pkgs : PkgType → LocalPkg)
    (hc : SaneCfg cfg) (hp : SanePkgs pkgs) (fd : FareDetails)
    (h : FromCalculator cfg pkgs fd) :
    fd.finalAmountZ = fd.subtotalZ + fd.gstZ ∧
    0 ≤ fd.subtotalZ ∧ 0 ≤ fd.gstZ ∧ 0 ≤ fd.finalAmountZ := by
  rcases h with ⟨vt, d, rt, dk, ni, f, hok, rfl⟩ | ⟨vt, pt, ek, eh, f, hok, rfl⟩ |
    ⟨vt, d, dk, ni, f, hok, rfl⟩
  · obtain ⟨hd, rfl⟩ := calculateOutstationFare_ok hok
    obtain ⟨h1, h2, h3, _⟩ := hc vt
    simpa [FareDetails.finalAmountZ, FareDetails.subtotalZ, FareDetails.gstZ] using
      outstationFareData_invariant cfg vt d rt ni h1 h2 h3 hd.le
  · obtain ⟨b, ek2, eh2, hbase, _, hek, heh, rfl⟩ := calculateLocalPackageFare_ok hok
    obtain ⟨hkr, hhr, hbase0⟩ := hp pt vt
    have hb : 0 ≤ b := by
      rw [hbase] at hbase0
      simpa using hbase0
    simpa [FareDetails.finalAmountZ, FareDetails.subtotalZ, FareDetails.gstZ] using
      localPackageFareData_invariant pkgs vt pt b ek2 eh2 hb hek heh hkr hhr
  · obtain ⟨hd, rfl⟩ := calculateAirportFare_ok hok
    obtain ⟨h1, _, h3, h4⟩ := hc vt
    simpa [FareDetails.finalAmountZ, FareDetails.subtotalZ, FareDetails.gstZ] using
      airportFareData_invariant cfg vt d ni h4 h1 h3

/-- Witness for C1 at the spec scenario: one-way SEDAN over 150 km by
day under the modelled tables. -/
theorem fare_breakdown_invariant_witness :
    SaneCfg defCfg ∧ SanePkgs defPkgs ∧
    FromCalculator defCfg defPkgs
      (FareDetails.outst (outstationFareData defCfg Vehicle.SEDAN 150 false false)) ∧
    ((FareDetails.outst (outstationFareData defCfg Vehicle.SEDAN 150 false false)).finalAmountZ =
      (FareDetails.outst (outstationFareData defCfg Vehicle.SEDAN 150 false false)).subtotalZ +
        (FareDetails.outst (outstationFareData defCfg Vehicle.SEDAN 150 false false)).gstZ ∧
      0 ≤ (FareDetails.outst (outstationFareData defCfg Vehicle.SEDAN 150 false false)).subtotalZ ∧
      0 ≤ (FareDetails.outst (outstationFareData defCfg Vehicle.SEDAN 150 false false)).gstZ ∧
      0 ≤ (FareDetails.outst (outstationFareData defCfg Vehicle.SEDAN 150 false false)).finalAmountZ) :=
  have hc : SaneCfg defCfg := by unfold SaneCfg; decide
  have hp : SanePkgs defPkgs := by unfold SanePkgs; decide
  have hfc : FromCalculator defCfg defPkgs
      (FareDetails.outst (outstationFareData defCfg Vehicle.SEDAN 150 false false)) :=
    Or.inl ⟨Vehicle.SEDAN, 150, false, true, false,
      outstationFareData defCfg Vehicle.SEDAN 150 false false, by decide, rfl⟩
  ⟨hc, hp, hfc, fare_breakdown_invariant defCfg defPkgs hc hp _ hfc⟩

theorem if_lt_eq_max (a b : ℚ) : (if a < b then b else a) = max a b := by
  rcases lt_or_ge a b with h | h
  · rw [if_pos h, max_eq_right h.le]
  · rw [if_neg (not_lt.2 h), max_eq_left h]

theorem floor_flag_iff (a b : ℚ) : ((if a < b then b else a) = b) ↔ a ≤ b := by
  rcases lt_or_ge a b with h | h
  · simp [if_pos h, h.le]
  · rw [if_neg (not_lt.2 h)]
    constructor
    · intro he
      exact he.le
    · intro hle
      exact le_antisymm hle h

theorem mf_rewrite (mfq : ℚ) (rt : Bool) :
    (if rt then mfq * (3/2) else mfq) = mfq * (if rt then 3/2 else 1) := by
  cases rt <;> simp

/-- C2: calculateOutstationFare computes totalDistance as the trip
distance doubled for a round trip and rounded to one decimal, floors
the per-km fare at the minimum fare (multiplied by 1.5 for a round
trip) recording the minimum-fare flag exactly when the returned base
fare is that floor, and on the spec scenario (one-way SEDAN, 150 km,
rate 14, minFare 1500, daytime) returns baseFare 2100, no night
charge, gst 105 and finalAmount 2205. -/
theorem outstation_formula_and_scenario (cfg : PricingCfg) (vt : Vehicle)
    (d : ℚ) (rt dk ni : Bool) (f : OutstationFare)
    (h : calculateOutstationFare cfg vt d rt dk ni = .ok f) :
    (f.distance = jround1 (d * (if rt then 2 else 1))
     ∧ f.baseFare = jround (max (f.distance * (cfg.pricing vt).perKmRate)
         ((cfg.pricing vt).minFare * (if rt then 3/2 else 1)))
     ∧ (f.minFareApplied = true ↔
         f.distance * (cfg.pricing vt).perKmRate ≤
           (cfg.pricing vt).minFare * (if rt then 3/2 else 1)))
    ∧ (calculateOutstationFare defCfg Vehicle.SEDAN 150 false true false).map
        (fun g => (g.baseFare, g.nightCharges, g.gst, g.finalAmount)) =
      .ok (2100, 0, 105, 2205) := by
  obtain ⟨hd, rfl⟩ := calculateOutstationFare_ok h
  refine ⟨⟨?_, ?_, ?_⟩, by decide⟩
  · simp [outstationFareData]
  · simp only [outstationFareData]
    rw [mf_rewrite, if_lt_eq_max]
  · simp only [outstationFareData]
    rw [decide_eq_true_eq, mf_rewrite, floor_flag_iff]

/-- Witness for C2 at the spec scenario. -/
theorem outstation_formula_and_scenario_witness :
    calculateOutstationFare defCfg Vehicle.SEDAN 150 false true false =
      .ok (outstationFareData defCfg Vehicle.SEDAN 150 false false) ∧
    (((outstationFareData defCfg Vehicle.SEDAN 150 false false).distance =
        jround1 (150 * (if false then 2 else 1))
      ∧ (outstationFareData defCfg Vehicle.SEDAN 150 false false).baseFare =
        jround (max ((outstationFareData defCfg Vehicle.SEDAN 150 false false).distance *
            (defCfg.pricing Vehicle.SEDAN).perKmRate)
          ((defCfg.pricing Vehicle.SEDAN).minFare * (if false then 3/2 else 1)))
      ∧ ((outstationFareData defCfg Vehicle.SEDAN 150 false false).minFareApplied = true ↔
        (outstationFareData defCfg Vehicle.SEDAN 150 false false).distance *
            (defCfg.pricing Vehicle.SEDAN).perKmRate ≤
          (defCfg.pricing Vehicle.SEDAN).minFare * (if false then 3/2 else 1)))
    ∧ (calculateOutstationFare defCfg Vehicle.SEDAN 150 false true false).map
        (fun g => (g.baseFare, g.nightCharges, g.gst, g.finalAmount)) =
      .ok (2100, 0, 105, 2205)) :=
  ⟨by decide,
    outstation_formula_and_scenario defCfg Vehicle.SEDAN 150 false true false _ (by decide)⟩

theorem outstation_subtotal_mono (b1 b2 mf m : ℚ) (ni : Bool)
    (hb : b1 ≤ b2) (hm : 0 ≤ m) :
    (if b1 < mf then mf else b1) +
      (if ni then (if b1 < mf then mf else b1) * (m - 1) else 0) ≤
    (if b2 < mf then mf else b2) +
      (if ni then (if b2 < mf then mf else b2) * (m - 1) else 0) := by
  have hB : (if b1 < mf then mf else b1) ≤ (if b2 < mf then mf else b2) := by
    rw [if_lt_eq_max, if_lt_eq_max]
    exact max_le_max hb (le_refl mf)
  by_cases hni : ni = true
  · simp only [if_pos hni]
    have hmm := mul_le_mul_of_nonneg_right hB hm
    nlinarith [hmm]
  · simp only [if_neg hni]
    simpa using hB

/-- C9: for fixed vehicle type, round-trip flag and start time, the
final amount computed by calculateOutstationFare is monotone
non-decreasing in the distance. -/
theorem outstation_fare_monotone (cfg : PricingCfg) (vt : Vehicle)
    (rt dk ni : Bool) (d1 d2 : ℚ) (f1 f2 : OutstationFare)
    (hrate : 0 ≤ (cfg.pricing vt).perKmRate)
    (hmult : 0 ≤ (cfg.pricing vt).nightChargeMultiplier)
    (hd : d1 ≤ d2)
    (h1 : calculateOutstationFare cfg vt d1 rt dk ni = .ok f1)
    (h2 : calculateOutstationFare cfg vt d2 rt dk ni = .ok f2) :
    f1.finalAmount ≤ f2.finalAmount := by
  obtain ⟨_, rfl⟩ := calculateOutstationFare_ok h1
  obtain ⟨_, rfl⟩ := calculateOutstationFare_ok h2
  simp only [outstationFareData]
  apply monotone_final GST_RATE (by norm_num [GST_RATE])
  apply outstation_subtotal_mono
  · apply mul_le_mul_of_nonneg_right _ hrate
    apply jround1_mono
    apply mul_le_mul_of_nonneg_right hd
    split_ifs <;> norm_num
  · linarith [hmult]

/-- Witness for C9: SEDAN one-way daytime, 100 km against 150 km. -/
theorem outstation_fare_monotone_witness :
    (0 : ℚ) ≤ (defCfg.pricing Vehicle.SEDAN).perKmRate ∧
    (0 : ℚ) ≤ (defCfg.pricing Vehicle.SEDAN).nightChargeMultiplier ∧
    (100 : ℚ) ≤ 150 ∧
    calculateOutstationFare defCfg Vehicle.SEDAN 100 false true false =
      .ok (outstationFareData defCfg Vehicle.SEDAN 100 false false) ∧
    calculateOutstationFare defCfg Vehicle.SEDAN 150 false true false =
      .ok (outstationFareData defCfg Vehicle.SEDAN 150 false false) ∧
    (outstationFareData defCfg Vehicle.SEDAN 100 false false).finalAmount ≤
      (outstationFareData defCfg Vehicle.SEDAN 150 false false).finalAmount :=
  ⟨by decide, by decide, by norm_num, by decide, by decide,
    outstation_fare_monotone defCfg Vehicle.SEDAN false true false 100 150 _ _
      (by decide) (by decide) (by norm_num) (by decide) (by decide)⟩

theorem applyDiscount_ok {status : BookingStatus} {tripStarted : Bool}
    {fd : StoredFare} {code : DiscountCode} {n : ℕ} {fd' : StoredFare}
    (h : applyDiscount status tripStarted fd code n = .ok fd') :
    ∃ amt : ℚ, 0 < amt ∧
      fd' = { fd with
        discountAmount := jround amt
        subtotal := jround (max 0 ((fd.baseFare : ℚ) + (fd.nightCharges : ℚ) -
          ((jround amt : ℤ) : ℚ)))
        gst := jround (calculateGST (max 0 ((fd.baseFare : ℚ) + (fd.nightCharges : ℚ) -
          ((jround amt : ℤ) : ℚ))) GST_RATE)
        finalAmount := jround ((max 0 ((fd.baseFare : ℚ) + (fd.nightCharges : ℚ) -
            ((jround amt : ℤ) : ℚ))) +
          calculateGST (max 0 ((fd.baseFare : ℚ) + (fd.nightCharges : ℚ) -
            ((jround amt : ℤ) : ℚ))) GST_RATE) } := by
  unfold applyDiscount at h
  split_ifs at h with hs ht hd0
  split at h
  next e heq => exact Except.noConfusion h
  next amt heq =>
    split_ifs at h with hle
    injection h with h
    exact ⟨amt, not_le.mp hle, h.symm⟩

/-- C3 counterexample: on a booking whose stored fare is the spec local
package scenario (base 1499, extra-km charge 140, subtotal 1639, gst
82, final 1721), applying FIRST100 produces subtotal 1399, not the
stored pre-tax subtotal 1639 minus the discount 100: applyDiscount
rebuilds the subtotal as baseFare plus nightCharges and drops the
extra-km and extra-hour charges of a local booking. -/
theorem applyDiscount_subtotal_counterexample :
    (applyDiscount BookingStatus.CONFIRMED false
        ⟨1499, 0, 1639, 82, 1721, 0⟩ DiscountCode.FIRST100 0).map
      (fun g => (g.discountAmount, g.subtotal)) = .ok (100, 1399)
    ∧ ((1399 : ℤ) ≠
        max 0 ((⟨1499, 0, 1639, 82, 1721, 0⟩ : StoredFare).subtotal - 100)) :=
  ⟨by decide, by decide⟩

/-- C3 amended: a successful discount application subtracts the
discount from baseFare plus nightCharges (the pre-tax subtotal except
for the extra charges of a local booking) with a floor of zero, never
from the taxed total; tax and finalAmount are recomputed from the
discounted subtotal; and whenever the stored fare was internally
consistent the new finalAmount does not exceed the old one. -/
theorem applyDiscount_amended (status : BookingStatus) (tripStarted : Bool)
    (fd : StoredFare) (code : DiscountCode) (n : ℕ) (fd' : StoredFare)
    (h : applyDiscount status tripStarted fd code n = .ok fd') :
    0 ≤ fd'.discountAmount
    ∧ fd'.subtotal = max 0 (fd.baseFare + fd.nightCharges - fd'.discountAmount)
    ∧ fd'.gst = jround ((fd'.subtotal : ℚ) * GST_RATE)
    ∧ fd'.finalAmount = fd'.subtotal + fd'.gst
    ∧ (0 ≤ fd.subtotal → fd.baseFare + fd.nightCharges ≤ fd.subtotal →
        fd.gst = jround ((fd.subtotal : ℚ) * GST_RATE) →
        fd.finalAmount = fd.subtotal + fd.gst →
        fd'.finalAmount ≤ fd.finalAmount) := by
  obtain ⟨amt, hamt, rfl⟩ := applyDiscount_ok h
  set dA : ℤ := jround amt with hdA
  have hdA0 : 0 ≤ dA := jround_nonneg hamt.le
  have hcast : ((max 0 (fd.baseFare + fd.nightCharges - dA) : ℤ) : ℚ) =
      max 0 ((fd.baseFare : ℚ) + (fd.nightCharges : ℚ) - ((dA : ℤ) : ℚ)) := by
    push_cast
    rfl
  set Z : ℤ := max 0 (fd.baseFare + fd.nightCharges - dA) with hZ
  have hsub : jround (max 0 ((fd.baseFare : ℚ) + (fd.nightCharges : ℚ) -
      ((dA : ℤ) : ℚ))) = Z := by
    rw [← hcast, jround_intCast]
  have hgst : jround (calculateGST (max 0 ((fd.baseFare : ℚ) + (fd.nightCharges : ℚ) -
      ((dA : ℤ) : ℚ))) GST_RATE) = jround ((Z : ℚ) * GST_RATE) := by
    rw [jround_calculateGST, ← hcast]
  have hfin : jround ((max 0 ((fd.baseFare : ℚ) + (fd.nightCharges : ℚ) -
        ((dA : ℤ) : ℚ))) +
      calculateGST (max 0 ((fd.baseFare : ℚ) + (fd.nightCharges : ℚ) -
        ((dA : ℤ) : ℚ))) GST_RATE) = Z + jround ((Z : ℚ) * GST_RATE) := by
    rw [jround_add_calculateGST, ← hcast, jround_intCast]
  refine ⟨hdA0, ?_, ?_, ?_, ?_⟩
  · simp only [hsub]
  · simp only [hsub, hgst]
  · simp only [hsub, hgst, hfin]
  · intro hS0 hle hg hf
    simp only [hfin]
    have hZS : Z ≤ fd.subtotal := by
      apply max_le hS0
      omega
    have := monotone_final GST_RATE (by norm_num [GST_RATE])
      (s := (Z : ℚ)) (t := (fd.subtotal : ℚ)) (by exact_mod_cast hZS)
    rw [jround_add_calculateGST, jround_add_calculateGST, jround_intCast,
      jround_intCast] at this
    rw [hf, hg]
    omega

/-- Witness for C3 amended at the counterexample booking. -/
theorem applyDiscount_amended_witness :
    applyDiscount BookingStatus.CONFIRMED false
        ⟨1499, 0, 1639, 82, 1721, 0⟩ DiscountCode.FIRST100 0 =
      .ok ⟨1499, 0, 1399, 70, 1469, 100⟩
    ∧ (0 ≤ (1469 : ℤ) - 1399 - 70 + 100) ∧
    ((0 : ℤ) ≤ (⟨1499, 0, 1399, 70, 1469, 100⟩ : StoredFare).discountAmount
    ∧ (⟨1499, 0, 1399, 70, 1469, 100⟩ : StoredFare).subtotal =
        max 0 ((⟨1499, 0, 1639, 82, 1721, 0⟩ : StoredFare).baseFare +
          (⟨1499, 0, 1639, 82, 1721, 0⟩ : StoredFare).nightCharges -
          (⟨1499, 0, 1399, 70, 1469, 100⟩ : StoredFare).discountAmount)
    ∧ (⟨1499, 0, 1399, 70, 1469, 100⟩ : StoredFare).gst =
        jround (((⟨1499, 0, 1399, 70, 1469, 100⟩ : StoredFare).subtotal : ℚ) * GST_RATE)
    ∧ (⟨1499, 0, 1399, 70, 1469, 100⟩ : StoredFare).finalAmount =
        (⟨1499, 0, 1399, 70, 1469, 100⟩ : StoredFare).subtotal +
          (⟨1499, 0, 1399, 70, 1469, 100⟩ : StoredFare).gst
    ∧ (0 ≤ (⟨1499, 0, 1639, 82, 1721, 0⟩ : StoredFare).subtotal →
        (⟨1499, 0, 1639, 82, 1721, 0⟩ : StoredFare).baseFare +
            (⟨1499, 0, 1639, 82, 1721, 0⟩ : StoredFare).nightCharges ≤
          (⟨1499, 0, 1639, 82, 1721, 0⟩ : StoredFare).subtotal →
        (⟨1499, 0, 1639, 82, 1721, 0⟩ : StoredFare).gst =
          jround (((⟨1499, 0, 1639, 82, 1721, 0⟩ : StoredFare).subtotal : ℚ) * GST_RATE) →
        (⟨1499, 0, 1639, 82, 1721, 0⟩ : StoredFare).finalAmount =
          (⟨1499, 0, 1639, 82, 1721, 0⟩ : StoredFare).subtotal +
            (⟨1499, 0, 1639, 82, 1721, 0⟩ : StoredFare).gst →
        (⟨1499, 0, 1399, 70, 1469, 100⟩ : StoredFare).finalAmount ≤
          (⟨1499, 0, 1639, 82, 1721, 0⟩ : StoredFare).finalAmount)) :=
  ⟨by decide, by decide,
    applyDiscount_amended BookingStatus.CONFIRMED false
      ⟨1499, 0, 1639, 82, 1721, 0⟩ DiscountCode.FIRST100 0
      ⟨1499, 0, 1399, 70, 1469, 100⟩ (by decide)⟩

/-- C4: an unlisted (from, to) status pair is rejected regardless of
role, but a listed pair attempted by a disallowed role does not produce
a distinct permission error: the source throws new AuthorizationError
while AuthorizationError is never imported into
booking.controller.js, so the attempt crashes with a ReferenceError
(embedded as referenceErrorAuthorization) instead of a permission
error.  Shown at the failing input: a DRIVER requesting the listed
CONFIRMED to ASSIGNED transition, whose allowed-roles list is ADMIN
only. -/
theorem updateBookingStatus_unbound_authorization_error :
    (∀ (r : Role) (own : Bool),
      updateBookingStatus r own BookingStatus.COMPLETED BookingStatus.CONFIRMED ≠
        UpdateStatusOutcome.updated)
    ∧ allowedRoles BookingStatus.CONFIRMED BookingStatus.ASSIGNED = [Role.ADMIN]
    ∧ updateBookingStatus Role.DRIVER false BookingStatus.CONFIRMED
        BookingStatus.ASSIGNED = UpdateStatusOutcome.referenceErrorAuthorization
    ∧ updateBookingStatus Role.DRIVER false BookingStatus.CONFIRMED
        BookingStatus.ASSIGNED ≠ UpdateStatusOutcome.invalidTransition := by
  refine ⟨?_, by decide, by decide, by decide⟩
  decide

/-- C5 counterexample: for a CONFIRMED booking cancelled 30 hours
before start (outside the 24 hour window, so charge 0) whose payment is
still PENDING by CASH, cancelBooking reports refund 0, not
max(0, finalAmount minus charge) = 1000: the refund formula only runs
for a completed or processing non-cash payment. -/
theorem cancelBooking_refund_counterexample :
    cancelBooking defCancelCfg BookingStatus.CONFIRMED 30 1000
        PaymentStatus.PENDING PaymentMethod.CASH = .ok ⟨0, 0, false⟩
    ∧ (0 : ℤ) ≠ max 0 (1000 - 0) :=
  ⟨by decide, by decide⟩

/-- C5 amended: on a user cancellation the charge is
round(finalAmount times chargePercent over 100) exactly when the gap to
the scheduled start is non-negative and below the window, and 0
otherwise; the reported refund equals max(0, finalAmount minus charge)
when the payment is completed or processing by a non-cash method, and 0
otherwise. -/
theorem cancelBooking_amended (cfg : CancelCfg) (status : BookingStatus)
    (hrs : ℚ) (finalAmount : ℤ) (ps : PaymentStatus) (pm : PaymentMethod)
    (out : CancellationOutcome)
    (h : cancelBooking cfg status hrs finalAmount ps pm = .ok out) :
    (out.charge = if 0 ≤ hrs ∧ hrs < cfg.windowHours then
        jround ((finalAmount : ℚ) * cfg.chargePercent / 100) else 0)
    ∧ (out.refund = if (ps = PaymentStatus.COMPLETED ∨ ps = PaymentStatus.PROCESSING)
          ∧ pm ≠ PaymentMethod.CASH then
        max 0 (finalAmount - out.charge) else 0) := by
  unfold cancelBooking at h
  by_cases hstat : status ∉ userCancellableStatuses
  · rw [if_pos hstat] at h
    exact Except.noConfusion h
  · rw [if_neg hstat] at h
    injection h with h
    subst h
    constructor
    · exact if_congr and_comm rfl rfl
    · rfl

/-- Witness for C5 amended: cancellation 22 hours before start of a
1000 rupee booking paid online, inside the 24 hour window at 10
percent: charge 100 and refund 900. -/
theorem cancelBooking_amended_witness :
    cancelBooking defCancelCfg BookingStatus.CONFIRMED 22 1000
        PaymentStatus.COMPLETED PaymentMethod.ONLINE = .ok ⟨100, 900, true⟩
    ∧ (((⟨100, 900, true⟩ : CancellationOutcome).charge =
        if 0 ≤ (22 : ℚ) ∧ (22 : ℚ) < defCancelCfg.windowHours then
          jround (((1000 : ℤ) : ℚ) * defCancelCfg.chargePercent / 100) else 0)
    ∧ ((⟨100, 900, true⟩ : CancellationOutcome).refund =
        if (PaymentStatus.COMPLETED = PaymentStatus.COMPLETED ∨
            PaymentStatus.COMPLETED = PaymentStatus.PROCESSING)
          ∧ PaymentMethod.ONLINE ≠ PaymentMethod.CASH then
        max 0 (1000 - (⟨100, 900, true⟩ : CancellationOutcome).charge) else 0)) :=
  ⟨by decide,
    cancelBooking_amended defCancelCfg BookingStatus.CONFIRMED 22 1000
      PaymentStatus.COMPLETED PaymentMethod.ONLINE ⟨100, 900, true⟩ (by decide)⟩

/-- C6: when the store holds a booking of the same user in a
non-terminal status scheduled within 30 minutes of the requested time,
createBooking rejects the request with a conflict naming a clashing
booking and leaves the store unchanged. -/
theorem createBooking_duplicate_conflict (bookings : List BookingRec)
    (uid : ℕ) (t : ℤ) (newId : ℕ)
    (h : ∃ b ∈ bookings, clashes uid t b = true) :
    ∃ c ∈ bookings, clashes uid t c = true ∧
      createBooking bookings uid t newId = (.conflictWith c.bookingId, bookings) := by
  have hsome : (bookings.find? (clashes uid t)).isSome := by
    rw [List.find?_isSome]
    exact h
  obtain ⟨c, hc⟩ := Option.isSome_iff_exists.mp hsome
  refine ⟨c, List.mem_of_find?_eq_some hc, List.find?_some hc, ?_⟩
  unfold createBooking
  rw [hc]

/-- Witness for C6 at the spec scenario: a CONFIRMED booking at 14:00
and a new request by the same user at 14:20 (epoch milliseconds,
1200000 ms apart). -/
theorem createBooking_duplicate_conflict_witness :
    (∃ b ∈ [(⟨7, 42, 0, BookingStatus.CONFIRMED⟩ : BookingRec)],
      clashes 42 1200000 b = true)
    ∧ ∃ c ∈ [(⟨7, 42, 0, BookingStatus.CONFIRMED⟩ : BookingRec)],
        clashes 42 1200000 c = true ∧
        createBooking [⟨7, 42, 0, BookingStatus.CONFIRMED⟩] 42 1200000 8 =
          (.conflictWith c.bookingId, [⟨7, 42, 0, BookingStatus.CONFIRMED⟩]) :=
  ⟨⟨⟨7, 42, 0, BookingStatus.CONFIRMED⟩, by decide, by decide⟩,
    createBooking_duplicate_conflict [⟨7, 42, 0, BookingStatus.CONFIRMED⟩] 42 1200000 8
      ⟨⟨7, 42, 0, BookingStatus.CONFIRMED⟩, by decide, by decide⟩⟩

theorem resolveEndpointCoords_from_fail (fromAddr toAddr : ℕ)
    (toCoords : Option Coords) (geocode : ℕ → Option Coords)
    (hgf : geocode fromAddr = none) :
    resolveEndpointCoords fromAddr toAddr none toCoords geocode =
      .error (.locationNotFound fromAddr) := by
  simp [resolveEndpointCoords, hgf]

theorem resolveEndpointCoords_to_fail (fromAddr toAddr : ℕ)
    (fromCoords : Option Coords) (geocode : ℕ → Option Coords) (o : Coords)
    (hfrom : fromCoords = some o ∨ (fromCoords = none ∧ geocode fromAddr = some o))
    (hgt : geocode toAddr = none) :
    resolveEndpointCoords fromAddr toAddr fromCoords none geocode =
      .error (.locationNotFound toAddr) := by
  rcases hfrom with hfc | ⟨hfc, hgf⟩
  · simp [resolveEndpointCoords, hfc, hgt]
  · simp [resolveEndpointCoords, hfc, hgf, hgt]

theorem resolveEndpointCoords_ok_sources (fromAddr toAddr : ℕ)
    (fromCoords toCoords : Option Coords) (geocode : ℕ → Option Coords)
    (o d : Coords)
    (h : resolveEndpointCoords fromAddr toAddr fromCoords toCoords geocode =
      .ok (.endpointCoords o d)) :
    (fromCoords = some o ∨ geocode fromAddr = some o) ∧
    (toCoords = some d ∨ geocode toAddr = some d) := by
  unfold resolveEndpointCoords at h
  cases hfc : fromCoords with
  | some c =>
    rw [hfc] at h
    cases htc : toCoords with
    | some c2 =>
      rw [htc] at h
      simp only at h
      injection h with h
      injection h with h1 h2
      exact ⟨Or.inl (by rw [h1]), Or.inl (by rw [h2])⟩
    | none =>
      rw [htc] at h
      cases hgt : geocode toAddr with
      | none =>
        rw [hgt] at h
        exact Except.noConfusion h
      | some c2 =>
        rw [hgt] at h
        simp only at h
        injection h with h
        injection h with h1 h2
        exact ⟨Or.inl (by rw [h1]), Or.inr (by rw [h2])⟩
  | none =>
    rw [hfc] at h
    cases hgf : geocode fromAddr with
    | none =>
      rw [hgf] at h
      exact Except.noConfusion h
    | some c =>
      rw [hgf] at h
      cases htc : toCoords with
      | some c2 =>
        rw [htc] at h
        simp only at h
        injection h with h
        injection h with h1 h2
        exact ⟨Or.inr (by rw [h1]), Or.inl (by rw [h2])⟩
      | none =>
        rw [htc] at h
        cases hgt : geocode toAddr with
        | none =>
          rw [hgt] at h
          exact Except.noConfusion h
        | some c2 =>
          rw [hgt] at h
          simp only at h
          injection h with h
          injection h with h1 h2
          exact ⟨Or.inr (by rw [h1]), Or.inr (by rw [h2])⟩

theorem searchCabs_no_valid_distance (distance : Option ℚ) (fromAddr toAddr : ℕ)
    (fromCoords toCoords : Option Coords) (geocode : ℕ → Option Coords)
    (hdist : distance = none ∨ ∃ v, distance = some v ∧ v ≤ 0) :
    searchCabsResolveEndpoints distance fromAddr toAddr fromCoords toCoords geocode =
      resolveEndpointCoords fromAddr toAddr fromCoords toCoords geocode := by
  rcases hdist with h | ⟨v, h, hv⟩
  · rw [h]
    rfl
  · rw [h]
    unfold searchCabsResolveEndpoints
    simp only
    rw [if_neg (not_lt.2 hv)]

/-- C7: when the caller supplies no usable distance and an endpoint is
a free-text address the geocoder cannot resolve (provider failure,
malformed response, timeout and no-result all surface as a none from
getCoordinatesFromAddressNominatim), searchCabs fails with a
location-not-found error naming that endpoint; and any coordinates the
pipeline does resolve come verbatim from the caller or the geocoder,
never from a substituted guess. -/
theorem searchCabs_location_not_found (distance : Option ℚ) (fromAddr toAddr : ℕ)
    (fromCoords toCoords : Option Coords) (geocode : ℕ → Option Coords)
    (hdist : distance = none ∨ ∃ v, distance = some v ∧ v ≤ 0) :
    (fromCoords = none → geocode fromAddr = none →
      searchCabsResolveEndpoints distance fromAddr toAddr fromCoords toCoords geocode =
        .error (.locationNotFound fromAddr))
    ∧ (∀ o : Coords,
        (fromCoords = some o ∨ (fromCoords = none ∧ geocode fromAddr = some o)) →
        toCoords = none → geocode toAddr = none →
        searchCabsResolveEndpoints distance fromAddr toAddr fromCoords toCoords geocode =
          .error (.locationNotFound toAddr))
    ∧ (∀ o d : Coords,
        searchCabsResolveEndpoints distance fromAddr toAddr fromCoords toCoords geocode =
          .ok (.endpointCoords o d) →
        (fromCoords = some o ∨ geocode fromAddr = some o) ∧
        (toCoords = some d ∨ geocode toAddr = some d)) := by
  have hred := searchCabs_no_valid_distance distance fromAddr toAddr fromCoords
    toCoords geocode hdist
  refine ⟨?_, ?_, ?_⟩
  · intro hfc hgf
    rw [hred, hfc]
    exact resolveEndpointCoords_from_fail fromAddr toAddr toCoords geocode hgf
  · intro o hfrom htc hgt
    rw [hred, htc]
    exact resolveEndpointCoords_to_fail fromAddr toAddr fromCoords geocode o hfrom hgt
  · intro o d hok
    rw [hred] at hok
    exact resolveEndpointCoords_ok_sources fromAddr toAddr fromCoords toCoords
      geocode o d hok

/-- Witness for C7: no distance, both endpoints as addresses, a
geocoder that resolves nothing; the pipeline fails naming the pickup
address. -/
theorem searchCabs_location_not_found_witness :
    ((none : Option ℚ) = none ∨ ∃ v, (none : Option ℚ) = some v ∧ v ≤ 0)
    ∧ (((none : Option Coords) = none → (fun _ : ℕ => (none : Option Coords)) 1 = none →
        searchCabsResolveEndpoints none 1 2 none none (fun _ => none) =
          .error (.locationNotFound 1))
    ∧ (∀ o : Coords,
        ((none : Option Coords) = some o ∨
          ((none : Option Coords) = none ∧ (fun _ : ℕ => (none : Option Coords)) 1 = some o)) →
        (none : Option Coords) = none → (fun _ : ℕ => (none : Option Coords)) 2 = none →
        searchCabsResolveEndpoints none 1 2 none none (fun _ => none) =
          .error (.locationNotFound 2))
    ∧ (∀ o d : Coords,
        searchCabsResolveEndpoints none 1 2 none none (fun _ => none) =
          .ok (.endpointCoords o d) →
        ((none : Option Coords) = some o ∨ (fun _ : ℕ => (none : Option Coords)) 1 = some o) ∧
        ((none : Option Coords) = some d ∨ (fun _ : ℕ => (none : Option Coords)) 2 = some d)))
    ∧ searchCabsResolveEndpoints none 1 2 none none (fun _ => none) =
        .error (.locationNotFound 1) :=
  have hmain := searchCabs_location_not_found none 1 2 none none (fun _ => none)
    (Or.inl rfl)
  ⟨Or.inl rfl, hmain, hmain.1 rfl rfl⟩

/-- C8: whenever routing fails (provider null, or a non-positive
distance, zero-for-distinct-coordinates included), any distance the
searchCabs pipeline still produces is the haversine great-circle
distance times the fixed 1.4 circuity factor rounded to one decimal,
and the routed-distance source is never used; when even that fallback
is non-positive the stage reports the distance-determination failure
instead of a distance. -/
theorem searchCabs_fallback_haversine (origin dest : Coords)
    (response : Option ℚ) (h : routingFailed origin dest response = true) :
    (∀ km : ℚ, searchCabsDistanceStage origin dest response ≠ .fromOSRM km)
    ∧ (∀ k : ℝ, searchCabsDistanceStage origin dest response = .fromFallback k →
        k = jround1R (haversineKm origin dest * (14/10))) := by
  unfold routingFailed at h
  unfold searchCabsDistanceStage
  cases hosrm : getDrivingDistanceOSRM origin dest response with
  | none =>
    simp only [hosrm]
    constructor
    · intro km hk
      by_cases hf : calculateDistanceFromCoordinates origin dest ≤ 0
      · rw [if_pos hf] at hk
        exact SearchDistance.noConfusion hk
      · rw [if_neg hf] at hk
        exact SearchDistance.noConfusion hk
    · intro k hk
      by_cases hf : calculateDistanceFromCoordinates origin dest ≤ 0
      · rw [if_pos hf] at hk
        exact SearchDistance.noConfusion hk
      · rw [if_neg hf] at hk
        injection hk with hk
        rw [← hk]
        rfl
  | some km0 =>
    simp only [hosrm] at h ⊢
    have hkm : km0 ≤ 0 := of_decide_eq_true h
    rw [if_neg (not_lt.2 hkm)]
    constructor
    · intro km hk
      by_cases hf : calculateDistanceFromCoordinates origin dest ≤ 0
      · rw [if_pos hf] at hk
        exact SearchDistance.noConfusion hk
      · rw [if_neg hf] at hk
        exact SearchDistance.noConfusion hk
    · intro k hk
      by_cases hf : calculateDistanceFromCoordinates origin dest ≤ 0
      · rw [if_pos hf] at hk
        exact SearchDistance.noConfusion hk
      · rw [if_neg hf] at hk
        injection hk with hk
        rw [← hk]
        rfl

/-- Witness for C8: distinct coordinates with an OSRM response of 20
meters, which rounds to 0.0 km and is treated as invalid, so routing
fails by the zero-for-distinct-coordinates rule. -/
theorem searchCabs_fallback_haversine_witness :
    routingFailed ⟨0, 0⟩ ⟨1, 1⟩ (some 20) = true
    ∧ ((∀ km : ℚ, searchCabsDistanceStage ⟨0, 0⟩ ⟨1, 1⟩ (some 20) ≠ .fromOSRM km)
    ∧ (∀ k : ℝ, searchCabsDistanceStage ⟨0, 0⟩ ⟨1, 1⟩ (some 20) = .fromFallback k →
        k = jround1R (haversineKm ⟨0, 0⟩ ⟨1, 1⟩ * (14/10)))) :=
  ⟨by decide, searchCabs_fallback_haversine ⟨0, 0⟩ ⟨1, 1⟩ (some 20) (by decide)⟩

theorem vehicleOptionFor_none_iff (cfg : PricingCfg) (pkgs : PkgType → LocalPkg)
    (bt : BookingType) (distance : Option ℚ) (ek eh : Option ℚ) (dk ni : Bool)
    (vt : Vehicle) :
    vehicleOptionFor cfg pkgs bt distance ek eh dk ni vt = none ↔
      ∃ e, fareFor cfg pkgs bt vt (distance.getD 0) ek eh dk ni = .error e := by
  unfold vehicleOptionFor
  cases hfo : fareFor cfg pkgs bt vt (distance.getD 0) ek eh dk ni with
  | ok fd =>
    simp only
    constructor
    · intro hcon
      exact Option.noConfusion hcon
    · rintro ⟨e, he⟩
      exact Except.noConfusion he
  | error e =>
    simp only
    exact ⟨fun _ => ⟨e, rfl⟩, fun _ => trivial⟩

theorem vehicleOptionFor_some_iff (cfg : PricingCfg) (pkgs : PkgType → LocalPkg)
    (bt : BookingType) (distance : Option ℚ) (ek eh : Option ℚ) (dk ni : Bool)
    (vt : Vehicle) (o : VehicleOption) :
    vehicleOptionFor cfg pkgs bt distance ek eh dk ni vt = some o ↔
      vt = o.vehicleType ∧
      fareFor cfg pkgs bt o.vehicleType (distance.getD 0) ek eh dk ni =
        .ok o.fareDetails := by
  unfold vehicleOptionFor
  cases hfo : fareFor cfg pkgs bt vt (distance.getD 0) ek eh dk ni with
  | ok fd =>
    simp only
    constructor
    · intro hsome
      injection hsome with hsome
      subst hsome
      exact ⟨rfl, hfo⟩
    · rintro ⟨rfl, hok⟩
      rw [hfo] at hok
      injection hok with hok
      rw [hok]
  | error e =>
    simp only
    constructor
    · intro hcon
      exact Option.noConfusion hcon
    · rintro ⟨rfl, hok⟩
      rw [hfo] at hok
      exact Except.noConfusion hok

/-- C10: with the distance gate satisfied, getVehicleOptions fails only
when the fare computation fails for every vehicle type (a single
failing vehicle is silently omitted rather than failing the call), and
a successful result lists exactly the vehicles whose computation
succeeded, sorted in non-decreasing order of the final amount. -/
theorem getVehicleOptions_skip_and_sort (cfg : PricingCfg)
    (pkgs : PkgType → LocalPkg) (bt : BookingType) (distance : Option ℚ)
    (ek eh : Option ℚ) (dk ni : Bool)
    (hgate : distanceParamOk bt distance = true) :
    (getVehicleOptions cfg pkgs bt distance ek eh dk ni = .error .badRequest ↔
      ∀ vt ∈ VEHICLE_LIST, ∃ e,
        fareFor cfg pkgs bt vt (distance.getD 0) ek eh dk ni = .error e)
    ∧ ∀ l, getVehicleOptions cfg pkgs bt distance ek eh dk ni = .ok l →
        l.Sorted (fun a b => a.fareDetails.finalAmountZ ≤ b.fareDetails.finalAmountZ)
        ∧ (∀ o : VehicleOption, o ∈ l ↔ o.vehicleType ∈ VEHICLE_LIST ∧
            fareFor cfg pkgs bt o.vehicleType (distance.getD 0) ek eh dk ni =
              .ok o.fareDetails) := by
  unfold getVehicleOptions
  rw [if_neg (not_not_intro hgate)]
  constructor
  · by_cases hemp : (VEHICLE_LIST.filterMap
        (vehicleOptionFor cfg pkgs bt distance ek eh dk ni)).isEmpty
    · rw [if_pos hemp]
      have hall : ∀ vt ∈ VEHICLE_LIST,
          vehicleOptionFor cfg pkgs bt distance ek eh dk ni vt = none := by
        rw [← List.filterMap_eq_nil_iff]
        exact List.isEmpty_iff.mp hemp
      constructor
      · intro _ vt hvt
        exact (vehicleOptionFor_none_iff cfg pkgs bt distance ek eh dk ni vt).mp
          (hall vt hvt)
      · intro _
        rfl
    · rw [if_neg hemp]
      constructor
      · intro hcon
        exact Except.noConfusion hcon
      · intro hall
        exfalso
        apply hemp
        rw [List.isEmpty_iff, List.filterMap_eq_nil_iff]
        intro vt hvt
        exact (vehicleOptionFor_none_iff cfg pkgs bt distance ek eh dk ni vt).mpr
          (hall vt hvt)
  · intro l hl
    by_cases hemp : (VEHICLE_LIST.filterMap
        (vehicleOptionFor cfg pkgs bt distance ek eh dk ni)).isEmpty
    · rw [if_pos hemp] at hl
      exact Except.noConfusion hl
    · rw [if_neg hemp] at hl
      injection hl with hl
      subst hl
      constructor
      · haveI : IsTotal VehicleOption
            (fun a b => a.fareDetails.finalAmountZ ≤ b.fareDetails.finalAmountZ) :=
          ⟨fun a b => le_total _ _⟩
        haveI : IsTrans VehicleOption
            (fun a b => a.fareDetails.finalAmountZ ≤ b.fareDetails.finalAmountZ) :=
          ⟨fun _ _ _ hab hbc => le_trans hab hbc⟩
        exact List.sorted_insertionSort _ _
      · intro o
        rw [List.mem_insertionSort, List.mem_filterMap]
        constructor
        · rintro ⟨vt, hvt, hsome⟩
          obtain ⟨rfl, hok⟩ :=
            (vehicleOptionFor_some_iff cfg pkgs bt distance ek eh dk ni vt o).mp hsome
          exact ⟨hvt, hok⟩
        · rintro ⟨hvt, hok⟩
          exact ⟨o.vehicleType, hvt,
            (vehicleOptionFor_some_iff cfg pkgs bt distance ek eh dk ni
              o.vehicleType o).mpr ⟨rfl, hok⟩⟩

/-- Witness for C10 on the modelled tables: the 8h/80km local package,
for which PREMIUM_SEDAN has no base fare and is silently omitted while
the other three vehicles are returned sorted by final amount. -/
theorem getVehicleOptions_skip_and_sort_witness :
    distanceParamOk BookingType.LOCAL_8_80 none = true
    ∧ ((getVehicleOptions defCfg defPkgs BookingType.LOCAL_8_80 none none none true false =
          .error .badRequest ↔
        ∀ vt ∈ VEHICLE_LIST, ∃ e,
          fareFor defCfg defPkgs BookingType.LOCAL_8_80 vt ((none : Option ℚ).getD 0)
            none none true false = .error e)
    ∧ ∀ l, getVehicleOptions defCfg defPkgs BookingType.LOCAL_8_80 none none none true false =
          .ok l →
        l.Sorted (fun a b => a.fareDetails.finalAmountZ ≤ b.fareDetails.finalAmountZ)
        ∧ (∀ o : VehicleOption, o ∈ l ↔ o.vehicleType ∈ VEHICLE_LIST ∧
            fareFor defCfg defPkgs BookingType.LOCAL_8_80 o.vehicleType
              ((none : Option ℚ).getD 0) none none true false = .ok o.fareDetails)) :=
  ⟨by decide, getVehicleOptions_skip_and_sort defCfg defPkgs BookingType.LOCAL_8_80
    none none none true false (by decide)⟩
